import Mathlib

/-!
Verification of the TFTP protocol engine in `package/tftpserver_class.py`.

The embedding models bytes as `Nat`, byte buffers as `List Nat`, and the
Python exceptions that the module can raise or catch as an explicit
`PyExc` type.  Stateful socket interaction is modelled by passing the
stream of datagrams that `recvfrom` will deliver as an explicit list and
collecting every datagram passed to `sendto` in an output list.  The
filesystem is an explicit function from filenames to either the file's
contents (read side) or to the success of `open(..., 'wb')` (write side).
Code that lets an exception escape a handler is distinguished from code
that catches it: an escaped exception aborts the main server loop.
-/

namespace TFTP

set_option maxRecDepth 8000

/-- Opcode constant `OPCODE_RRQ = 1` (line 5 of the source). -/
def OPCODE_RRQ : Nat := 1

/-- Opcode constant `OPCODE_WRQ = 2` (line 6). -/
def OPCODE_WRQ : Nat := 2

/-- Opcode constant `OPCODE_DATA = 3` (line 7). -/
def OPCODE_DATA : Nat := 3

/-- Opcode constant `OPCODE_ACK = 4` (line 8). -/
def OPCODE_ACK : Nat := 4

/-- Opcode constant `OPCODE_ERROR = 5` (line 9). -/
def OPCODE_ERROR : Nat := 5

/-- Error code `ERROR_FILE_NOT_FOUND = 1` (line 12). -/
def ERROR_FILE_NOT_FOUND : Nat := 1

/-- Error code `ERROR_ACCESS_VIOLATION = 2` (line 13). -/
def ERROR_ACCESS_VIOLATION : Nat := 2

/-- Error code `ERROR_ILLEGAL_OPERATION = 4` (line 15). -/
def ERROR_ILLEGAL_OPERATION : Nat := 4

/-- Error code `ERROR_UNKNOWN_TID = 5` (line 16). -/
def ERROR_UNKNOWN_TID : Nat := 5

/-- Maximum packet size `MAX_PACKET_SIZE = 516` (line 21). -/
def MAX_PACKET_SIZE : Nat := 516

/-- The Python exceptions that can arise in this module.
`fileNotFoundError`, `permissionError` and `otherError` carry their
`str(e)` text as a byte list, because for filesystem exceptions that text
embeds the client-supplied filename and is therefore unbounded.
`structError`, `valueError` and `unicodeDecodeError` carry none: the
texts CPython gives them here are fixed, short strings. -/
inductive PyExc : Type
  | structError
  | valueError
  | unicodeDecodeError
  | fileNotFoundError (msg : List Nat)
  | permissionError (msg : List Nat)
  | otherError (msg : List Nat)
deriving DecidableEq

/-- ASCII bytes of a literal message string. -/
def asciiOf (s : String) : List Nat := s.toList.map Char.toNat

/-- Message `"File not found"` passed at line 79. -/
def fileNotFoundMsg : List Nat := asciiOf "File not found"

/-- Message `"Access violation"` passed at lines 81 and 115. -/
def accessViolationMsg : List Nat := asciiOf "Access violation"

/-- Message `"Invalid opcode"` passed at line 50. -/
def invalidOpcodeMsg : List Nat := asciiOf "Invalid opcode"

/-- The `str(e)` text used at lines 83 and 117.  The filesystem
exceptions carry their own (unbounded) text; `structError` and the two
parse exceptions have CPython's fixed texts, of which only the
`struct.error` one is ever reachable through an except clause (the two
parse exceptions are raised outside every `try`). -/
def excMsg : PyExc → List Nat
  | .structError => asciiOf "unpack requires a buffer of 2 bytes"
  | .valueError => asciiOf "subsection not found"
  | .unicodeDecodeError => asciiOf "ordinal not in range(128)"
  | .fileNotFoundError msg => msg
  | .permissionError msg => msg
  | .otherError msg => msg

/-- Embedding of `struct.unpack('!H', b)[0]`: requires a buffer of exactly 2 bytes,
otherwise raises `struct.error`; returns the big-endian 16-bit value. -/
def unpackU16 (b : List Nat) : Except PyExc Nat :=
  match b with
  | [hi, lo] => .ok (hi * 256 + lo)
  | _ => .error .structError

/-- Embedding of `struct.pack('!H', n)`: raises `struct.error` unless `0 ≤ n ≤ 65535`;
returns the two big-endian bytes. -/
def packU16 (n : Nat) : Except PyExc (List Nat) :=
  if n ≤ 65535 then .ok [n / 256, n % 256] else .error .structError

/-- Embedding of `data[2:data.index(b'\x00', 2)].decode('ascii')` (lines 54 and 87):
find the first zero byte at index ≥ 2 (`ValueError` if absent), slice out
the filename, and ASCII-decode it (`UnicodeDecodeError` if any byte is
≥ 128).  Both exceptions are raised outside any `try` block. -/
def findZeroFrom : List Nat → Nat → Option Nat
  | [], _ => none
  | b :: rest, i => if b = 0 then some i else findZeroFrom rest (i + 1)

/-- Filename extraction of lines 54 and 87; see `findZeroFrom`. -/
def requestFilename (data : List Nat) : Except PyExc (List Nat) :=
  match findZeroFrom (data.drop 2) 2 with
  | none => .error .valueError
  | some idx =>
    let bs := (data.take idx).drop 2
    if bs.all (fun b => decide (b < 128)) then .ok bs
    else .error .unicodeDecodeError

/-- Embedding of `self.socket.recvfrom(MAX_PACKET_SIZE)`: a UDP datagram longer than
516 bytes is truncated to its first 516 bytes. -/
def recvDatagram (raw : List Nat) : List Nat := raw.take MAX_PACKET_SIZE

/-- The error packet built by `send_error_response` (line 120):
`pack('!H', 5) + pack('!H', code) + message + b'\x00'`.  Every call site
passes a code between 1 and 5, for which `pack` cannot fail. -/
def errorPacket (code : Nat) (msg : List Nat) : List Nat :=
  [OPCODE_ERROR / 256, OPCODE_ERROR % 256, code / 256, code % 256] ++ msg ++ [0]

/-- The data packet built at line 66:
`pack('!H', OPCODE_DATA) + pack('!H', block_number) + file_data`. -/
def encodeDataPacket (blockNumber : Nat) (payload : List Nat) :
    Except PyExc (List Nat) :=
  match packU16 OPCODE_DATA, packU16 blockNumber with
  | .ok op, .ok bn => .ok (op ++ bn ++ payload)
  | .error e, _ => .error e
  | _, .error e => .error e

/-- The ack packet built at line 108:
`pack('!H', OPCODE_ACK) + pack('!H', block_number)`. -/
def encodeAckPacket (blockNumber : Nat) : Except PyExc (List Nat) :=
  match packU16 OPCODE_ACK, packU16 blockNumber with
  | .ok op, .ok bn => .ok (op ++ bn)
  | .error e, _ => .error e
  | _, .error e => .error e

/-- The in-session header decode (lines 71-72 and 98-99):
`unpack('!H', pkt[:2])[0]` and `unpack('!H', pkt[2:4])[0]`. -/
def decodeHeader (pkt : List Nat) : Except PyExc (Nat × Nat) :=
  match unpackU16 (pkt.take 2) with
  | .error e => .error e
  | .ok op =>
    match unpackU16 ((pkt.drop 2).take 2) with
    | .error e => .error e
    | .ok bn => .ok (op, bn)

/-- The codec operation `decodeData` of the specification, as realised by
lines 98-100: unpack the opcode and block number, take everything after
byte 4 as the payload, and return the pair (block number, payload). -/
def decodeData (pkt : List Nat) : Except PyExc (Nat × List Nat) :=
  match decodeHeader pkt with
  | .error e => .error e
  | .ok (_, bn) => .ok (bn, pkt.drop 4)

/-- The codec operation `decodeAck` of the specification, as realised by
lines 71-72: unpack the opcode and block number, return the block number. -/
def decodeAck (pkt : List Nat) : Except PyExc Nat :=
  match decodeHeader pkt with
  | .error e => .error e
  | .ok (_, bn) => .ok bn

/-- How a transfer loop ended. -/
inductive LoopExit : Type
  | completed
  | mismatch
  | raised (e : PyExc)
  | blocked
deriving DecidableEq

/-- How a request handler (or one server-loop iteration) ended.
`uncaught e` means the exception `e` escaped every handler and will
terminate the main server loop. -/
inductive HandlerExit : Type
  | normal
  | blocked
  | uncaught (e : PyExc)
deriving DecidableEq

/-- The `while True` loop of `handle_read_request` (lines 61-77).
`rem` is the not-yet-read suffix of the file (`file.read(512)` returns
its first 512 bytes), `ins` the datagrams `recvfrom` will deliver.
Returns the packets passed to `sendto`, in order, and how the loop ended. -/
def readLoop (rem : List Nat) (blockNumber : Nat) (ins : List (List Nat)) :
    List (List Nat) × LoopExit :=
  let fileData := rem.take 512
  if fileData = [] then ([], .completed)
  else
    match encodeDataPacket blockNumber fileData with
    | .error e => ([], .raised e)
    | .ok packet =>
      match ins with
      | [] => ([packet], .blocked)
      | ackRaw :: rest =>
        match decodeHeader (recvDatagram ackRaw) with
        | .error e => ([packet], .raised e)
        | .ok (op, bn) =>
          if op = OPCODE_ACK ∧ bn = blockNumber then
            let r := readLoop (rem.drop 512) (blockNumber + 1) rest
            (packet :: r.1, r.2)
          else ([packet], .mismatch)

/-- The `while True` loop of `handle_write_request` (lines 93-112).
`blockNumber` is the value of `block_number` before the `+= 1` at the top
of the iteration.  Returns the ack packets sent, the bytes written to the
file, and how the loop ended. -/
def writeLoop (blockNumber : Nat) (ins : List (List Nat)) :
    List (List Nat) × List Nat × LoopExit :=
  let b := blockNumber + 1
  match ins with
  | [] => ([], [], .blocked)
  | raw :: rest =>
    let pkt := recvDatagram raw
    match decodeHeader pkt with
    | .error e => ([], [], .raised e)
    | .ok (op, bn) =>
      if op = OPCODE_DATA ∧ bn = b then
        let payload := pkt.drop 4
        match encodeAckPacket b with
        | .error e => ([], payload, .raised e)
        | .ok ackPkt =>
          if payload.length < 512 then ([ackPkt], payload, .completed)
          else
            let r := writeLoop b rest
            (ackPkt :: r.1, payload ++ r.2.1, r.2.2)
      else ([], [], .mismatch)

/-- The `except` clauses of `handle_read_request` (lines 78-83):
`FileNotFoundError` → code 1, `PermissionError` → code 2, any other
`Exception` → code 5 with `str(e)`. -/
def exceptClauseRead (e : PyExc) : List Nat :=
  match e with
  | .fileNotFoundError _ => errorPacket ERROR_FILE_NOT_FOUND fileNotFoundMsg
  | .permissionError _ => errorPacket ERROR_ACCESS_VIOLATION accessViolationMsg
  | e => errorPacket ERROR_UNKNOWN_TID (excMsg e)

/-- The `except` clauses of `handle_write_request` (lines 114-117):
`PermissionError` → code 2, any other `Exception` → code 5 with `str(e)`. -/
def exceptClauseWrite (e : PyExc) : List Nat :=
  match e with
  | .permissionError _ => errorPacket ERROR_ACCESS_VIOLATION accessViolationMsg
  | e => errorPacket ERROR_UNKNOWN_TID (excMsg e)

/-- Handler `handle_read_request` (lines 52-83).  `fs` models `open(name, 'rb')`
followed by reading: it either yields the file's bytes or the exception
`open` raises.  The filename extraction at line 54 sits outside the `try`
block, so its exceptions escape the handler (`HandlerExit.uncaught`). -/
def handleReadRequest (fs : List Nat → Except PyExc (List Nat))
    (data : List Nat) (ins : List (List Nat)) :
    List (List Nat) × HandlerExit :=
  match requestFilename data with
  | .error e => ([], .uncaught e)
  | .ok filename =>
    match fs filename with
    | .error e => ([exceptClauseRead e], .normal)
    | .ok contents =>
      let r := readLoop contents 1 ins
      match r.2 with
      | .completed => (r.1, .normal)
      | .mismatch => (r.1, .normal)
      | .blocked => (r.1, .blocked)
      | .raised e => (r.1 ++ [exceptClauseRead e], .normal)

/-- Handler `handle_write_request` (lines 85-117).  `wfs` models
`open(name, 'wb')`: success or the exception it raises.  Returns the sent
packets, the bytes written to the file, and the handler exit. -/
def handleWriteRequest (wfs : List Nat → Except PyExc Unit)
    (data : List Nat) (ins : List (List Nat)) :
    List (List Nat) × List Nat × HandlerExit :=
  match requestFilename data with
  | .error e => ([], [], .uncaught e)
  | .ok filename =>
    match wfs filename with
    | .error e => ([exceptClauseWrite e], [], .normal)
    | .ok _ =>
      let r := writeLoop 0 ins
      match r.2.2 with
      | .completed => (r.1, r.2.1, .normal)
      | .mismatch => (r.1, r.2.1, .normal)
      | .blocked => (r.1, r.2.1, .blocked)
      | .raised e => (r.1 ++ [exceptClauseWrite e], r.2.1, .normal)

/-- One iteration of the main server loop (lines 40-50): receive a
datagram, unpack its opcode (no `try` protects this `unpack`, so a short
datagram raises `struct.error` out of the loop), and dispatch.  Returns
the packets sent during the iteration and how it ended; `.uncaught`
terminates the server process. -/
def serverStep (fs : List Nat → Except PyExc (List Nat))
    (wfs : List Nat → Except PyExc Unit)
    (raw : List Nat) (ins : List (List Nat)) :
    List (List Nat) × HandlerExit :=
  let data := recvDatagram raw
  match unpackU16 (data.take 2) with
  | .error e => ([], .uncaught e)
  | .ok opcode =>
    if opcode = OPCODE_RRQ then handleReadRequest fs data ins
    else if opcode = OPCODE_WRQ then
      let r := handleWriteRequest wfs data ins
      (r.1, r.2.2)
    else ([errorPacket ERROR_ILLEGAL_OPERATION invalidOpcodeMsg], .normal)

/-- The block number carried in bytes 2-3 of a packet. -/
def blockOf (p : List Nat) : Nat := 256 * p.getD 2 0 + p.getD 3 0

/-- A wire datagram respects the 516-byte maximum. -/
def wireOK (p : List Nat) : Bool := decide (p.length ≤ MAX_PACKET_SIZE)

/-! ## Basic codec lemmas -/

theorem packU16_ok {n : Nat} {p : List Nat} (h : packU16 n = .ok p) :
    p = [n / 256, n % 256] ∧ n ≤ 65535 := by
  unfold packU16 at h
  split at h <;> simp_all

theorem encodeDataPacket_eq (b : Nat) (fd : List Nat) :
    encodeDataPacket b fd =
      if b ≤ 65535 then .ok (0 :: 3 :: (b / 256) :: (b % 256) :: fd)
      else .error .structError := by
  unfold encodeDataPacket packU16
  by_cases hb : b ≤ 65535 <;> simp [hb, OPCODE_DATA]

theorem encodeAckPacket_eq (b : Nat) :
    encodeAckPacket b =
      if b ≤ 65535 then .ok [0, 4, b / 256, b % 256]
      else .error .structError := by
  unfold encodeAckPacket packU16
  by_cases hb : b ≤ 65535 <;> simp [hb, OPCODE_ACK]

theorem decodeHeader_cons (a b c d : Nat) (rest : List Nat) :
    decodeHeader (a :: b :: c :: d :: rest) = .ok (a * 256 + b, c * 256 + d) := by
  simp [decodeHeader, unpackU16]

theorem unpackU16_error {b : List Nat} {e : PyExc} (h : unpackU16 b = .error e) :
    e = .structError := by
  unfold unpackU16 at h
  split at h <;> simp_all

theorem decodeHeader_error {pkt : List Nat} {e : PyExc}
    (h : decodeHeader pkt = .error e) : e = .structError := by
  unfold decodeHeader at h
  rcases h1 : unpackU16 (pkt.take 2) with e1 | v1 <;> rw [h1] at h
  · cases h; exact unpackU16_error h1
  · rcases h2 : unpackU16 ((pkt.drop 2).take 2) with e2 | v2 <;> rw [h2] at h
    · cases h; exact unpackU16_error h2
    · cases h

theorem blockOf_dataPacket (b : Nat) (fd : List Nat) :
    blockOf (0 :: 3 :: (b / 256) :: (b % 256) :: fd) = b := by
  simp [blockOf]
  omega

theorem blockOf_ackPacket (b : Nat) :
    blockOf [0, 4, b / 256, b % 256] = b := by
  simp [blockOf]
  omega

/-! ## Handler glue lemmas -/

theorem handleRead_open_error {fs : List Nat → Except PyExc (List Nat)}
    {data : List Nat} {fn : List Nat} {e : PyExc} (ins : List (List Nat))
    (hfn : requestFilename data = .ok fn) (hfs : fs fn = .error e) :
    handleReadRequest fs data ins = ([exceptClauseRead e], .normal) := by
  simp [handleReadRequest, hfn, hfs]

theorem handleRead_mismatch {fs : List Nat → Except PyExc (List Nat)}
    {data fn contents : List Nat} {ins : List (List Nat)} {s : List (List Nat)}
    (hfn : requestFilename data = .ok fn) (hfs : fs fn = .ok contents)
    (hl : readLoop contents 1 ins = (s, .mismatch)) :
    handleReadRequest fs data ins = (s, .normal) := by
  simp [handleReadRequest, hfn, hfs, hl]

theorem handleRead_raised {fs : List Nat → Except PyExc (List Nat)}
    {data fn contents : List Nat} {ins : List (List Nat)} {s : List (List Nat)}
    {e : PyExc}
    (hfn : requestFilename data = .ok fn) (hfs : fs fn = .ok contents)
    (hl : readLoop contents 1 ins = (s, .raised e)) :
    handleReadRequest fs data ins = (s ++ [exceptClauseRead e], .normal) := by
  simp [handleReadRequest, hfn, hfs, hl]

theorem handleWrite_mismatch {wfs : List Nat → Except PyExc Unit}
    {data fn : List Nat} {ins : List (List Nat)} {s : List (List Nat)} {w : List Nat}
    (hfn : requestFilename data = .ok fn) (hwfs : wfs fn = .ok ())
    (hl : writeLoop 0 ins = (s, w, .mismatch)) :
    handleWriteRequest wfs data ins = (s, w, .normal) := by
  simp [handleWriteRequest, hfn, hwfs, hl]

theorem handleWrite_raised {wfs : List Nat → Except PyExc Unit}
    {data fn : List Nat} {ins : List (List Nat)} {s : List (List Nat)} {w : List Nat}
    {e : PyExc}
    (hfn : requestFilename data = .ok fn) (hwfs : wfs fn = .ok ())
    (hl : writeLoop 0 ins = (s, w, .raised e)) :
    handleWriteRequest wfs data ins = (s ++ [exceptClauseWrite e], w, .normal) := by
  simp [handleWriteRequest, hfn, hwfs, hl]

theorem encodeDataPacket_ok {b : Nat} {fd p : List Nat}
    (h : encodeDataPacket b fd = .ok p) :
    p = 0 :: 3 :: (b / 256) :: (b % 256) :: fd ∧ b ≤ 65535 := by
  rw [encodeDataPacket_eq] at h
  split at h <;> simp_all

theorem encodeAckPacket_ok {b : Nat} {p : List Nat}
    (h : encodeAckPacket b = .ok p) :
    p = [0, 4, b / 256, b % 256] ∧ b ≤ 65535 := by
  rw [encodeAckPacket_eq] at h
  split at h <;> simp_all

theorem encodeDataPacket_error {b : Nat} {fd : List Nat} {e : PyExc}
    (h : encodeDataPacket b fd = .error e) : e = .structError := by
  rw [encodeDataPacket_eq] at h
  split at h <;> simp_all

theorem encodeAckPacket_error {b : Nat} {e : PyExc}
    (h : encodeAckPacket b = .error e) : e = .structError := by
  rw [encodeAckPacket_eq] at h
  split at h <;> simp_all

/-! ## Claim C1 -/

/-- C1: the spec's final-block rule says a read session transitions to
Complete exactly when the last Data payload is shorter than 512 bytes,
and that a read of a 1024-byte file ends with a third, 0-byte Data block.
The code instead stops as soon as `file.read(512)` returns empty: for a
1024-byte file it sends exactly two 512-byte Data blocks and returns
normally, never sending the empty final block — so its last transferred
payload has length 512 at completion.  This theorem evaluates the
embedded `handle_read_request` at that failing input. -/
theorem C1_read_1024_no_final_block :
    handleReadRequest (fun _ => .ok (List.replicate 1024 7)) [0, 1, 97, 0]
        [[0, 4, 0, 1], [0, 4, 0, 2]] =
      ([0 :: 3 :: 0 :: 1 :: List.replicate 512 7,
        0 :: 3 :: 0 :: 2 :: List.replicate 512 7], .normal) := by rfl

/-! ## Claim C2 -/

/-- C2: the spec requires every decode operation to return a structured
`ProtocolError` on truncated input.  The code's top-level opcode decode
(`struct.unpack('!H', data[:2])` at line 43) is not protected by any
`try`: a single-byte datagram raises `struct.error`, which escapes the
main loop and terminates the server process instead of producing a
structured error.  This theorem evaluates one server-loop iteration at
that failing input. -/
theorem C2_short_datagram_uncaught :
    serverStep (fun _ => .ok []) (fun _ => .ok ()) [5] [] =
      ([], .uncaught .structError) := rfl

/-! ## Claim C3 -/

/-- C3: the spec says a decode failure never terminates the server
process.  But the filename extraction at line 54 (`data.index(b'\x00', 2)`)
runs outside the `try` block: a read-request datagram with no null
terminator raises `ValueError`, which escapes `handle_read_request` and
the main loop, terminating the server.  This theorem evaluates one
server-loop iteration at that failing input. -/
theorem C3_unterminated_request_uncaught :
    serverStep (fun _ => .ok []) (fun _ => .ok ()) [0, 1] [] =
      ([], .uncaught .valueError) := rfl

/-! ## Claim C4 -/

/-- C4 counterexample: the claim says every protocol-sequence violation
(including a packet that fails to decode) makes the server send no packet
at all.  But during an active read transfer a 3-byte ack raises
`struct.error` inside the `try`, and the generic `except Exception`
clause at line 82 sends an ErrorPacket with code 5 to the peer: the
handler's output contains a second, error packet. -/
theorem C4_counterexample_error_packet_sent :
    handleReadRequest (fun _ => .ok [7]) [0, 1, 97, 0] [[0, 4, 0]] =
      ([[0, 3, 0, 1, 7],
        errorPacket ERROR_UNKNOWN_TID (excMsg .structError)], .normal) := rfl

/-- C4 amended: during an active transfer (read or write) a well-formed
packet with an unexpected opcode or a mismatched block number terminates
the session locally and the handler sends nothing further; an incoming
packet that fails to decode (shorter than 4 bytes) instead raises
`struct.error`, which the generic except clause of either handler
converts into exactly one ErrorPacket with code 5 (UnknownTransferId)
sent to the peer.  Stated at loop level (what the violating iteration
sends) and at handler level for both `handle_read_request` and
`handle_write_request` (what is sent after the loop ends). -/
theorem C4_amended_sequence_violation :
    (∀ (rem : List Nat) (b : Nat) (ack : List Nat) (rest : List (List Nat))
        (p : List Nat) (op bn : Nat),
        encodeDataPacket b (rem.take 512) = .ok p →
        rem.take 512 ≠ [] →
        decodeHeader (recvDatagram ack) = .ok (op, bn) →
        op ≠ OPCODE_ACK ∨ bn ≠ b →
        readLoop rem b (ack :: rest) = ([p], .mismatch)) ∧
    (∀ (rem : List Nat) (b : Nat) (ack : List Nat) (rest : List (List Nat))
        (p : List Nat) (e : PyExc),
        encodeDataPacket b (rem.take 512) = .ok p →
        rem.take 512 ≠ [] →
        decodeHeader (recvDatagram ack) = .error e →
        readLoop rem b (ack :: rest) = ([p], .raised e)) ∧
    (∀ (b : Nat) (raw : List Nat) (rest : List (List Nat)) (op bn : Nat),
        decodeHeader (recvDatagram raw) = .ok (op, bn) →
        op ≠ OPCODE_DATA ∨ bn ≠ b + 1 →
        writeLoop b (raw :: rest) = ([], [], .mismatch)) ∧
    (∀ (b : Nat) (raw : List Nat) (rest : List (List Nat)) (e : PyExc),
        decodeHeader (recvDatagram raw) = .error e →
        writeLoop b (raw :: rest) = ([], [], .raised e)) ∧
    (∀ (fs : List Nat → Except PyExc (List Nat)) (data : List Nat)
        (ins : List (List Nat)) (fn contents : List Nat) (s : List (List Nat)),
        requestFilename data = .ok fn → fs fn = .ok contents →
        readLoop contents 1 ins = (s, .mismatch) →
        handleReadRequest fs data ins = (s, .normal)) ∧
    (∀ (fs : List Nat → Except PyExc (List Nat)) (data : List Nat)
        (ins : List (List Nat)) (fn contents : List Nat) (s : List (List Nat)),
        requestFilename data = .ok fn → fs fn = .ok contents →
        readLoop contents 1 ins = (s, .raised .structError) →
        handleReadRequest fs data ins =
          (s ++ [errorPacket ERROR_UNKNOWN_TID (excMsg .structError)], .normal)) ∧
    (∀ (wfs : List Nat → Except PyExc Unit) (data : List Nat)
        (ins : List (List Nat)) (fn : List Nat) (s : List (List Nat)) (w : List Nat),
        requestFilename data = .ok fn → wfs fn = .ok () →
        writeLoop 0 ins = (s, w, .mismatch) →
        handleWriteRequest wfs data ins = (s, w, .normal)) ∧
    (∀ (wfs : List Nat → Except PyExc Unit) (data : List Nat)
        (ins : List (List Nat)) (fn : List Nat) (s : List (List Nat)) (w : List Nat),
        requestFilename data = .ok fn → wfs fn = .ok () →
        writeLoop 0 ins = (s, w, .raised .structError) →
        handleWriteRequest wfs data ins =
          (s ++ [errorPacket ERROR_UNKNOWN_TID (excMsg .structError)], w, .normal)) := by
  refine ⟨?_, ?_, ?_, ?_, ?_, ?_, ?_, ?_⟩
  · intro rem b ack rest p op bn he hne hd hvio
    have hcond : ¬(op = OPCODE_ACK ∧ bn = b) := by tauto
    simp [readLoop, hne, he, hd, hcond]
  · intro rem b ack rest p e he hne hd
    simp [readLoop, hne, he, hd]
  · intro b raw rest op bn hd hvio
    have hcond : ¬(op = OPCODE_DATA ∧ bn = b + 1) := by tauto
    simp [writeLoop, hd, hcond]
  · intro b raw rest e hd
    simp [writeLoop, hd]
  · intro fs data ins fn contents s hfn hfs hl
    exact handleRead_mismatch hfn hfs hl
  · intro fs data ins fn contents s hfn hfs hl
    exact handleRead_raised hfn hfs hl
  · intro wfs data ins fn s w hfn hwfs hl
    exact handleWrite_mismatch hfn hwfs hl
  · intro wfs data ins fn s w hfn hwfs hl
    exact handleWrite_raised hfn hwfs hl

theorem C4_amended_sequence_violation_witness :
    readLoop [7] 1 [[0, 5, 0, 1]] = ([[0, 3, 0, 1, 7]], .mismatch) ∧
    writeLoop 0 [[0, 4, 0, 1]] = ([], [], .mismatch) ∧
    handleReadRequest (fun _ => .ok [7]) [0, 1, 97, 0] [[9]] =
      ([[0, 3, 0, 1, 7]] ++ [errorPacket ERROR_UNKNOWN_TID (excMsg .structError)],
        .normal) ∧
    handleWriteRequest (fun _ => .ok ()) [0, 2, 97, 0] [[0, 5, 0, 1]] =
      ([], [], .normal) ∧
    handleWriteRequest (fun _ => .ok ()) [0, 2, 97, 0] [[9]] =
      ([] ++ [errorPacket ERROR_UNKNOWN_TID (excMsg .structError)], [], .normal) :=
  ⟨C4_amended_sequence_violation.1 [7] 1 [0, 5, 0, 1] [] [0, 3, 0, 1, 7] 5 1
      rfl (by decide) rfl (Or.inl (by decide)),
   C4_amended_sequence_violation.2.2.1 0 [0, 4, 0, 1] [] 4 1 rfl (Or.inl (by decide)),
   C4_amended_sequence_violation.2.2.2.2.2.1 (fun _ => .ok [7]) [0, 1, 97, 0] [[9]]
      [97] [7] [[0, 3, 0, 1, 7]] rfl rfl rfl,
   C4_amended_sequence_violation.2.2.2.2.2.2.1 (fun _ => .ok ()) [0, 2, 97, 0]
      [[0, 5, 0, 1]] [97] [] [] rfl rfl rfl,
   C4_amended_sequence_violation.2.2.2.2.2.2.2 (fun _ => .ok ()) [0, 2, 97, 0]
      [[9]] [97] [] [] rfl rfl rfl⟩

/-! ## Claim C5 -/

/-- C5: round-trip — for any block number `b ≤ 65535` and payload of at
most 512 bytes, decoding the encoding of a Data packet yields back
exactly `(b, payload)`, and decoding the encoding of an Ack packet
yields back `b`. -/
theorem C5_codec_roundtrip (b : Nat) (payload : List Nat)
    (hb : b ≤ 65535) (_hp : payload.length ≤ 512) :
    (encodeDataPacket b payload).bind decodeData = .ok (b, payload) ∧
    (encodeAckPacket b).bind decodeAck = .ok b := by
  constructor
  · rw [encodeDataPacket_eq, if_pos hb]
    simp [Except.bind, decodeData, decodeHeader_cons]
    omega
  · rw [encodeAckPacket_eq, if_pos hb]
    simp [Except.bind, decodeAck, decodeHeader_cons]
    omega

theorem C5_codec_roundtrip_witness :
    (encodeDataPacket 65535 [1, 2, 3]).bind decodeData = .ok (65535, [1, 2, 3]) ∧
    (encodeAckPacket 65535).bind decodeAck = .ok 65535 :=
  C5_codec_roundtrip 65535 [1, 2, 3] (by decide) (by decide)

/-! ## Claim C6: sequencing lemmas -/

theorem readLoop_step {rem : List Nat} {b : Nat} {ack : List Nat}
    {rest : List (List Nat)} {p : List Nat} {op bn : Nat}
    (hf : rem.take 512 ≠ []) (he : encodeDataPacket b (rem.take 512) = .ok p)
    (hd : decodeHeader (recvDatagram ack) = .ok (op, bn))
    (hm : op = OPCODE_ACK ∧ bn = b) :
    readLoop rem b (ack :: rest) =
      (p :: (readLoop (rem.drop 512) (b + 1) rest).1,
       (readLoop (rem.drop 512) (b + 1) rest).2) := by
  conv_lhs => rw [readLoop.eq_def]
  simp [hf, he, hd, hm]

theorem writeLoop_step {b : Nat} {raw : List Nat} {rest : List (List Nat)}
    {op bn : Nat} {q : List Nat}
    (hd : decodeHeader (recvDatagram raw) = .ok (op, bn))
    (hm : op = OPCODE_DATA ∧ bn = b + 1)
    (ha : encodeAckPacket (b + 1) = .ok q)
    (hlen : ¬ (recvDatagram raw).length - 4 < 512) :
    writeLoop b (raw :: rest) =
      (q :: (writeLoop (b + 1) rest).1,
       (recvDatagram raw).drop 4 ++ (writeLoop (b + 1) rest).2.1,
       (writeLoop (b + 1) rest).2.2) := by
  conv_lhs => rw [writeLoop.eq_def]
  simp [hd, hm, ha, hlen]

theorem readLoop_blocks (ins : List (List Nat)) :
    ∀ (rem : List Nat) (b : Nat),
      (readLoop rem b ins).1.map blockOf =
        List.range' b (readLoop rem b ins).1.length := by
  induction ins with
  | nil =>
    intro rem b
    by_cases hf : rem.take 512 = []
    · simp [readLoop, hf]
    · rcases he : encodeDataPacket b (rem.take 512) with e | p
      · simp [readLoop, hf, he]
      · obtain ⟨hp, hb⟩ := encodeDataPacket_ok he
        subst hp
        simp [readLoop, hf, he, blockOf_dataPacket, List.range'_succ]
  | cons ack rest ih =>
    intro rem b
    by_cases hf : rem.take 512 = []
    · simp [readLoop, hf]
    · rcases he : encodeDataPacket b (rem.take 512) with e | p
      · simp [readLoop, hf, he]
      · obtain ⟨hp, hb⟩ := encodeDataPacket_ok he
        rcases hd : decodeHeader (recvDatagram ack) with e | ⟨op, bn⟩
        · subst hp
          simp [readLoop, hf, he, hd, blockOf_dataPacket, List.range'_succ]
        · by_cases hm : op = OPCODE_ACK ∧ bn = b
          · subst hp
            rw [readLoop_step hf he hd hm]
            simp [blockOf_dataPacket, ih, List.range'_succ]
          · subst hp
            simp [readLoop, hf, he, hd, hm, blockOf_dataPacket, List.range'_succ]

theorem readLoop_advance (ins : List (List Nat)) :
    ∀ (rem : List Nat) (b i : Nat),
      i + 1 < (readLoop rem b ins).1.length →
      decodeHeader (recvDatagram (ins.getD i [])) = .ok (OPCODE_ACK, b + i) := by
  induction ins with
  | nil =>
    intro rem b i hi
    exfalso
    by_cases hf : rem.take 512 = []
    · simp [readLoop, hf] at hi
    · rcases he : encodeDataPacket b (rem.take 512) with e | p
      · simp [readLoop, hf, he] at hi
      · simp [readLoop, hf, he] at hi
  | cons ack rest ih =>
    intro rem b i hi
    by_cases hf : rem.take 512 = []
    · exfalso; simp [readLoop, hf] at hi
    · rcases he : encodeDataPacket b (rem.take 512) with e | p
      · exfalso; simp [readLoop, hf, he] at hi
      · rcases hd : decodeHeader (recvDatagram ack) with e | ⟨op, bn⟩
        · exfalso; simp [readLoop, hf, he, hd] at hi
        · by_cases hm : op = OPCODE_ACK ∧ bn = b
          · rw [readLoop_step hf he hd hm] at hi
            simp only [List.length_cons] at hi
            cases i with
            | zero =>
              obtain ⟨h1, h2⟩ := hm
              subst h1; subst h2
              simpa using hd
            | succ j =>
              have hrec := ih (rem.drop 512) (b + 1) j (by omega)
              have harith : b + 1 + j = b + (j + 1) := by omega
              simpa [harith] using hrec
          · exfalso; simp [readLoop, hf, he, hd, hm] at hi

theorem writeLoop_blocks (ins : List (List Nat)) :
    ∀ (b : Nat),
      (writeLoop b ins).1.map blockOf =
        List.range' (b + 1) (writeLoop b ins).1.length := by
  induction ins with
  | nil => intro b; simp [writeLoop]
  | cons raw rest ih =>
    intro b
    rcases hd : decodeHeader (recvDatagram raw) with e | ⟨op, bn⟩
    · simp [writeLoop, hd]
    · by_cases hm : op = OPCODE_DATA ∧ bn = b + 1
      · rcases ha : encodeAckPacket (b + 1) with e | q
        · simp [writeLoop, hd, hm, ha]
        · obtain ⟨hq, hble⟩ := encodeAckPacket_ok ha
          subst hq
          by_cases hlen : (recvDatagram raw).length - 4 < 512
          · simp [writeLoop, hd, hm, ha, hlen, blockOf_ackPacket,
              List.range'_succ]
          · rw [writeLoop_step hd hm ha hlen]
            simp [blockOf_ackPacket, ih, List.range'_succ]
      · simp [writeLoop, hd, hm]

theorem writeLoop_advance (ins : List (List Nat)) :
    ∀ (b i : Nat), i < (writeLoop b ins).1.length →
      decodeHeader (recvDatagram (ins.getD i [])) = .ok (OPCODE_DATA, b + 1 + i) := by
  induction ins with
  | nil => intro b i hi; exfalso; simp [writeLoop] at hi
  | cons raw rest ih =>
    intro b i hi
    rcases hd : decodeHeader (recvDatagram raw) with e | ⟨op, bn⟩
    · exfalso; simp [writeLoop, hd] at hi
    · by_cases hm : op = OPCODE_DATA ∧ bn = b + 1
      · rcases ha : encodeAckPacket (b + 1) with e | q
        · exfalso; simp [writeLoop, hd, hm, ha] at hi
        · by_cases hlen : (recvDatagram raw).length - 4 < 512
          · simp [writeLoop, hd, hm, ha, hlen] at hi
            cases i with
            | zero =>
              obtain ⟨h1, h2⟩ := hm
              subst h1; subst h2
              simpa using hd
            | succ j => exfalso; omega
          · rw [writeLoop_step hd hm ha hlen] at hi
            simp only [List.length_cons] at hi
            cases i with
            | zero =>
              obtain ⟨h1, h2⟩ := hm
              subst h1; subst h2
              simpa using hd
            | succ j =>
              have hrec := ih (b + 1) j (by omega)
              have harith : b + 1 + 1 + j = b + 1 + (j + 1) := by omega
              simpa [harith] using hrec
      · exfalso; simp [writeLoop, hd, hm] at hi

/-- C6: within one session the block-number counter starts at 1 and the
block numbers of the packets the session sends are exactly 1, 2, 3, ...
in order; the read loop reaches a data block beyond the i-th one only if
the i-th received datagram decoded as an Ack with exactly the expected
block number, and the write loop acks the i-th block only if the i-th
received datagram decoded as Data with exactly the expected block number. -/
theorem C6_block_counter_sequencing (rem : List Nat) (ins : List (List Nat)) :
    ((readLoop rem 1 ins).1.map blockOf =
        List.range' 1 (readLoop rem 1 ins).1.length) ∧
    (∀ i, i + 1 < (readLoop rem 1 ins).1.length →
        decodeHeader (recvDatagram (ins.getD i [])) = .ok (OPCODE_ACK, 1 + i)) ∧
    ((writeLoop 0 ins).1.map blockOf =
        List.range' 1 (writeLoop 0 ins).1.length) ∧
    (∀ i, i < (writeLoop 0 ins).1.length →
        decodeHeader (recvDatagram (ins.getD i [])) = .ok (OPCODE_DATA, 1 + i)) := by
  refine ⟨readLoop_blocks ins rem 1, fun i hi => readLoop_advance ins rem 1 i hi,
    writeLoop_blocks ins 0, fun i hi => ?_⟩
  simpa using writeLoop_advance ins 0 i hi

theorem C6_block_counter_sequencing_witness :
    decodeHeader (recvDatagram (([[0, 4, 0, 1]] : List (List Nat)).getD 0 [])) =
      .ok (OPCODE_ACK, 1 + 0) :=
  (C6_block_counter_sequencing (List.replicate 513 9) [[0, 4, 0, 1]]).2.1 0
    (by decide)

/-! ## Claim C7 -/

/-- C7: a read request naming a nonexistent file (open raises
`FileNotFoundError`, whatever its message text) makes the server send
exactly one ErrorPacket, whose error-code field holds 1 (FileNotFound)
and whose message is the fixed "File not found" of line 79, and no Data
packet; the handler then returns normally. -/
theorem C7_missing_file_one_error_packet
    (fs : List Nat → Except PyExc (List Nat)) (data : List Nat)
    (ins : List (List Nat)) (fn m : List Nat)
    (hfn : requestFilename data = .ok fn)
    (hfs : fs fn = .error (.fileNotFoundError m)) :
    handleReadRequest fs data ins =
      ([errorPacket ERROR_FILE_NOT_FOUND fileNotFoundMsg], .normal) ∧
    (errorPacket ERROR_FILE_NOT_FOUND fileNotFoundMsg).take 4 =
      [0, OPCODE_ERROR, 0, ERROR_FILE_NOT_FOUND] := by
  refine ⟨?_, by decide⟩
  rw [handleRead_open_error ins hfn hfs]
  rfl

theorem C7_missing_file_one_error_packet_witness :
    handleReadRequest (fun _ => .error (.fileNotFoundError [101, 114, 114]))
        [0, 1, 97, 0] [] =
      ([errorPacket ERROR_FILE_NOT_FOUND fileNotFoundMsg], .normal) ∧
    (errorPacket ERROR_FILE_NOT_FOUND fileNotFoundMsg).take 4 =
      [0, OPCODE_ERROR, 0, ERROR_FILE_NOT_FOUND] :=
  C7_missing_file_one_error_packet _ [0, 1, 97, 0] [] [97] [101, 114, 114] rfl rfl

/-! ## Claim C8: size lemmas -/

theorem dataPacket_length_bounds {b : Nat} {rem : List Nat}
    (hf : rem.take 512 ≠ []) :
    5 ≤ (0 :: 3 :: (b / 256) :: (b % 256) :: rem.take 512).length ∧
    (0 :: 3 :: (b / 256) :: (b % 256) :: rem.take 512).length ≤ MAX_PACKET_SIZE := by
  have h3 : 0 < (rem.take 512).length := List.length_pos.mpr hf
  simp [List.length_take] at h3
  simp [MAX_PACKET_SIZE, List.length_take]
  omega

theorem readLoop_sent_length (ins : List (List Nat)) :
    ∀ (rem : List Nat) (b : Nat), ∀ p ∈ (readLoop rem b ins).1,
      5 ≤ p.length ∧ p.length ≤ MAX_PACKET_SIZE := by
  induction ins with
  | nil =>
    intro rem b p hp
    by_cases hf : rem.take 512 = []
    · simp [readLoop, hf] at hp
    · rcases he : encodeDataPacket b (rem.take 512) with e | q
      · simp [readLoop, hf, he] at hp
      · obtain ⟨hq, _⟩ := encodeDataPacket_ok he
        subst hq
        simp [readLoop, hf, he] at hp
        subst hp
        exact dataPacket_length_bounds hf
  | cons ack rest ih =>
    intro rem b p hp
    by_cases hf : rem.take 512 = []
    · simp [readLoop, hf] at hp
    · rcases he : encodeDataPacket b (rem.take 512) with e | q
      · simp [readLoop, hf, he] at hp
      · obtain ⟨hq, _⟩ := encodeDataPacket_ok he
        subst hq
        rcases hd : decodeHeader (recvDatagram ack) with e | ⟨op, bn⟩
        · simp [readLoop, hf, he, hd] at hp
          subst hp
          exact dataPacket_length_bounds hf
        · by_cases hm : op = OPCODE_ACK ∧ bn = b
          · rw [readLoop_step hf he hd hm] at hp
            simp only [List.mem_cons] at hp
            rcases hp with hp | hp
            · subst hp
              exact dataPacket_length_bounds hf
            · exact ih (rem.drop 512) (b + 1) p hp
          · simp [readLoop, hf, he, hd, hm] at hp
            subst hp
            exact dataPacket_length_bounds hf

theorem writeLoop_sent_length (ins : List (List Nat)) :
    ∀ (b : Nat), ∀ p ∈ (writeLoop b ins).1, p.length = 4 := by
  induction ins with
  | nil => intro b p hp; simp [writeLoop] at hp
  | cons raw rest ih =>
    intro b p hp
    rcases hd : decodeHeader (recvDatagram raw) with e | ⟨op, bn⟩
    · simp [writeLoop, hd] at hp
    · by_cases hm : op = OPCODE_DATA ∧ bn = b + 1
      · rcases ha : encodeAckPacket (b + 1) with e | q
        · simp [writeLoop, hd, hm, ha] at hp
        · obtain ⟨hq, _⟩ := encodeAckPacket_ok ha
          subst hq
          by_cases hlen : (recvDatagram raw).length - 4 < 512
          · simp [writeLoop, hd, hm, ha, hlen] at hp
            subst hp
            rfl
          · rw [writeLoop_step hd hm ha hlen] at hp
            simp only [List.mem_cons] at hp
            rcases hp with hp | hp
            · subst hp
              rfl
            · exact ih (b + 1) p hp
      · simp [writeLoop, hd, hm] at hp

/-- C8 counterexample: the claim bounds every produced datagram by 516
bytes, but an error packet is 5 bytes plus the message, and the message
of the generic except clause is `str(e)`, which for a filesystem
exception embeds the client-supplied filename.  Here a legal write
request whose `open` raises `FileNotFoundError` with a 530-byte message
(as a long path produces) makes the server emit a 535-byte datagram. -/
theorem C8_counterexample_oversized_error_packet :
    ((serverStep (fun _ => .ok [])
        (fun _ => .error (.fileNotFoundError (List.replicate 530 97)))
        [0, 2, 97, 0] []).1.all wireOK) = false := by decide

/-- C8 amended: every datagram the server accepts is truncated by
`recvfrom` to at most 516 bytes; every Data packet and every Ack packet
it produces is at most 516 bytes; an ErrorPacket is exactly 5 bytes plus
its message, which keeps the code's fixed messages (and the fixed
`struct.error` text of the generic clause) within 516 — but nothing
bounds the `str(e)` of a filesystem exception, so error packets can
exceed 516 bytes (see the counterexample). -/
theorem C8_amended_size_bound :
    (∀ raw : List Nat, (recvDatagram raw).length ≤ MAX_PACKET_SIZE) ∧
    (∀ (ins : List (List Nat)) (rem : List Nat) (b : Nat),
        (readLoop rem b ins).1.all wireOK = true) ∧
    (∀ (ins : List (List Nat)) (b : Nat),
        (writeLoop b ins).1.all wireOK = true) ∧
    (∀ (code : Nat) (msg : List Nat),
        (errorPacket code msg).length = msg.length + 5) ∧
    (errorPacket ERROR_FILE_NOT_FOUND fileNotFoundMsg).length ≤ MAX_PACKET_SIZE ∧
    (errorPacket ERROR_ACCESS_VIOLATION accessViolationMsg).length ≤ MAX_PACKET_SIZE ∧
    (errorPacket ERROR_ILLEGAL_OPERATION invalidOpcodeMsg).length ≤ MAX_PACKET_SIZE ∧
    (errorPacket ERROR_UNKNOWN_TID (excMsg .structError)).length ≤ MAX_PACKET_SIZE := by
  refine ⟨?_, ?_, ?_, ?_, by decide, by decide, by decide, by decide⟩
  · intro raw
    simp [recvDatagram, List.length_take]
  · intro ins rem b
    rw [List.all_eq_true]
    intro p hp
    simp only [wireOK, decide_eq_true_eq]
    exact (readLoop_sent_length ins rem b p hp).2
  · intro ins b
    rw [List.all_eq_true]
    intro p hp
    simp only [wireOK, decide_eq_true_eq]
    rw [writeLoop_sent_length ins b p hp]
    decide
  · intro code msg
    simp [errorPacket]

/-! ## Claim C9 -/

/-- C9: every Data packet the read path sends carries at least one
payload byte (total length at least 5), and a read request for an
existing empty file makes the server send no packets at all, the handler
returning normally at once. -/
theorem C9_no_empty_data_packet :
    (∀ (rem : List Nat) (b : Nat) (ins : List (List Nat)),
        (readLoop rem b ins).1.all (fun p => decide (5 ≤ p.length)) = true) ∧
    (∀ (fs : List Nat → Except PyExc (List Nat)) (data : List Nat)
        (ins : List (List Nat)) (fn : List Nat),
        requestFilename data = .ok fn → fs fn = .ok [] →
        handleReadRequest fs data ins = ([], .normal)) := by
  constructor
  · intro rem b ins
    rw [List.all_eq_true]
    intro p hp
    simp only [decide_eq_true_eq]
    exact (readLoop_sent_length ins rem b p hp).1
  · intro fs data ins fn hfn hfs
    simp [handleReadRequest, hfn, hfs, readLoop]

theorem C9_no_empty_data_packet_witness :
    (readLoop [] 1 []).1.all (fun p => decide (5 ≤ p.length)) = true ∧
    handleReadRequest (fun _ => .ok []) [0, 1, 97, 0] [] = ([], .normal) :=
  ⟨C9_no_empty_data_packet.1 [] 1 [],
   C9_no_empty_data_packet.2 (fun _ => .ok []) [0, 1, 97, 0] [] [97] rfl rfl⟩

/-! ## Claim C10 -/

/-- C10: the block counter is a Python unbounded integer and is never
reduced modulo 2^16: once the counter exceeds 65535 while file data
remains, `struct.pack` fails before any packet of that iteration is sent
(so no Data packet with a wrapped block number ever goes out), and the
handler's generic except clause converts the `struct.error` into one
ErrorPacket carrying code 5 (UnknownTransferId). -/
theorem C10_no_block_number_wraparound :
    (∀ (rem : List Nat) (b : Nat) (ins : List (List Nat)),
        65535 < b → rem.take 512 ≠ [] →
        readLoop rem b ins = ([], .raised .structError)) ∧
    (∀ (fs : List Nat → Except PyExc (List Nat)) (data : List Nat)
        (ins : List (List Nat)) (fn contents : List Nat) (s : List (List Nat)),
        requestFilename data = .ok fn → fs fn = .ok contents →
        readLoop contents 1 ins = (s, .raised .structError) →
        handleReadRequest fs data ins =
          (s ++ [errorPacket ERROR_UNKNOWN_TID (excMsg .structError)], .normal)) := by
  constructor
  · intro rem b ins hb hne
    have he : encodeDataPacket b (rem.take 512) = .error .structError := by
      rw [encodeDataPacket_eq, if_neg (by omega)]
    cases ins with
    | nil => simp [readLoop, hne, he]
    | cons a rest => simp [readLoop, hne, he]
  · intro fs data ins fn contents s hfn hfs hl
    exact handleRead_raised hfn hfs hl

theorem C10_no_block_number_wraparound_witness :
    readLoop [7] 65536 [] = ([], .raised .structError) ∧
    handleReadRequest (fun _ => .ok [8]) [0, 1, 97, 0] [[9]] =
      ([[0, 3, 0, 1, 8]] ++ [errorPacket ERROR_UNKNOWN_TID (excMsg .structError)],
        .normal) :=
  ⟨C10_no_block_number_wraparound.1 [7] 65536 [] (by decide) (by decide),
   C10_no_block_number_wraparound.2 (fun _ => .ok [8]) [0, 1, 97, 0] [[9]]
     [97] [8] [[0, 3, 0, 1, 8]] rfl rfl rfl⟩

end TFTP
